import Mathlib

/-!
# Verification of the signed-URL log-serving service

Shallow embedding of `src/airflow/utils/serve_logs.py`: the Flask app built by
`create_app`, its `validate_pre_signed_url` before-request hook (lines 44-68),
the `serve_logs_view` route (lines 70-72), and the `serve_logs` entry point
(lines 101-111).  Timestamps and the configured `max_request_age` are Python
ints, embedded as `Int`.  The external `itsdangerous` serializer and the Flask
dispatch machinery are not part of the repository source; where their behaviour
decides a claim they are modelled from the spec, with doc comments saying so.
-/

namespace ServeLogs

/-- Wire form of the value carried in the `Authorization` header.  A token is
either something `signer.loads` cannot parse at all (`malformed`, covering
truncated or garbage strings, for which the serializer raises), or a structured
token carrying a string payload, optional integer `iat` and `exp` header
fields (`none` models an absent or non-integer field, for which the
`int(headers[...])` conversion at lines 53-54 raises), and the key it was
signed with (signature verification succeeds exactly when that key equals the
verifier's secret). -/
inductive TokenWire where
  | malformed
  | signed (payload : String) (iatField : Option Int) (expField : Option Int) (sigKey : String)
  deriving DecidableEq

/-- An incoming HTTP request, reduced to the two pieces
`validate_pre_signed_url` reads: the optional `Authorization` header
(`none` models a request without one, for which `request.headers['Authorization']`
at line 47 raises `KeyError`) and the URL path used for routing. -/
structure Request where
  authorization : Option TokenWire
  urlPath : String
  deriving DecidableEq

/-- Modelled from the spec: the encoding side of the external
`itsdangerous.TimedJSONWebSignatureSerializer` (`signer.dumps`, used by the
out-of-scope issuer; its source is not in the repository).  Per section 4.1 it
serializes the resource together with the `iat`/`exp` timestamps and signs the
payload with the shared secret. -/
def signer_dumps (secret payload : String) (issued_at expires_at : Int) : TokenWire :=
  .signed payload (some issued_at) (some expires_at) secret

/-- Modelled from the spec: the decoding side of the external serializer
(`signer.loads` at line 51; its source is not in the repository).  Per section
4.1 it fails (raises) exactly when the token is malformed or the signature does
not verify against the configured secret, and otherwise returns the payload
together with the header fields. -/
def signer_loads (secret : String) :
    TokenWire → Option (String × Option Int × Option Int)
  | .malformed => none
  | .signed payload iatField expField sigKey =>
    if sigKey = secret then some (payload, iatField, expField) else none

/-- Lines 46-56: the `try` block of `validate_pre_signed_url`.  Reads the
`Authorization` header (`KeyError` when absent), runs `signer.loads`
(raises on a malformed token or bad signature), and converts the `iat` and
`exp` header fields with `int(...)` (raises when a field is absent or not an
integer).  `none` means some exception was raised, which the `except` clause
turns into `abort(403)`. -/
def decode_auth (secret : String) : Option TokenWire → Option (String × Int × Int)
  | none => none
  | some t =>
    match signer_loads secret t with
    | none => none
    | some (filename, iatField, expField) =>
      match iatField, expField with
      | some issued_at, some expires_at => some (filename, issued_at, expires_at)
      | _, _ => none

/-- Modelled from the spec (section 6 wire contract) and the route declaration
at line 70: Flask's URL matching for `/log/<path:filename>`.  The `path`
converter matches a nonempty remainder that does not start with `/` and may
contain further slashes; on a match, `request.view_args['filename']` holds the
remainder.  `none` models a request URL matched by no route, for which
`request.view_args` is `None`. -/
def parse_log_route (path : String) : Option String :=
  match path.data with
  | '/' :: 'l' :: 'o' :: 'g' :: '/' :: c :: rest =>
    if c = '/' then none else some (String.mk (c :: rest))
  | _ => none

/-- Outcome of the before-request hook: `allow` (fall through to the view),
`deny403` (some `abort(403)` fired), or `internalError` (an exception escaped
the hook: the `request.view_args['filename']` subscript at line 58 sits outside
the `try` block, so on a request matched by no route it raises an unhandled
`TypeError` instead of aborting). -/
inductive AuthDecision where
  | allow
  | deny403
  | internalError
  deriving DecidableEq

/-- Lines 44-68: the `validate_pre_signed_url` before-request hook, evaluated
against a request and the current time `now = int(time.time())` (line 62).
Mirrors the source order: the `try` block, the filename comparison, then the
three freshness conditionals. -/
def validate_pre_signed_url (secret : String) (max_request_age : Int)
    (req : Request) (now : Int) : AuthDecision :=
  match decode_auth secret req.authorization with
  | none => .deny403
  | some (filename, issued_at, expires_at) =>
    match parse_log_route req.urlPath with
    | none => .internalError
    | some reqFilename =>
      if filename ≠ reqFilename then .deny403
      else if |now - issued_at| > max_request_age then .deny403
      else if |now - expires_at| > max_request_age then .deny403
      else if issued_at > expires_at ∨ expires_at - issued_at > max_request_age then .deny403
      else .allow

/-- An HTTP response, reduced to what the claims distinguish: a `200` carrying
the directory and filename handed to `send_from_directory`, the opaque `403`
produced by `abort(403)`, Flask's `404` for an unmatched URL, and the `500`
produced when an unhandled exception escapes a handler. -/
inductive HttpResponse where
  | ok200 (directory filename : String)
  | forbidden403
  | notFound404
  | internalError500
  deriving DecidableEq

/-- Lines 70-72: the `/log/<path:filename>` view.  Delegates to
`send_from_directory(log_directory, filename, ...)`, embedded as the `200`
response naming the directory and file it streams. -/
def serve_logs_view (log_directory filename : String) : HttpResponse :=
  .ok200 log_directory filename

/-- Modelled from the spec (section 2 control flow) and the Flask decorators at
lines 44 and 70: dispatch of one request through the app that `create_app`
builds.  The registered before-request hook runs first on every request — also
on requests matched by no route, where `request.view_args` is `None`; an
`abort(403)` in the hook short-circuits to the `403` response and an unhandled
exception to the `500` response.  Only when the hook falls through is the
matched view invoked (`404` when no route matched). -/
def full_dispatch_request (secret : String) (max_request_age : Int)
    (log_directory : String) (req : Request) (now : Int) : HttpResponse :=
  match validate_pre_signed_url secret max_request_age req now with
  | .deny403 => .forbidden403
  | .internalError => .internalError500
  | .allow =>
    match parse_log_route req.urlPath with
    | some filename => serve_logs_view log_directory filename
    | none => .notFound404

/-- The process-wide state `create_app` closes over (lines 31-41): the shared
secret, the configured `max_request_age` (line 32, default 30) and the log
directory.  The source initializes it once at startup and never writes to it
afterwards; there is no other server-side state. -/
structure AppState where
  secret_key : String
  max_request_age : Int
  log_directory : String
  deriving DecidableEq

/-- One request handled against the app state: the response, paired with the
state as it stands after the request.  The source mutates nothing, so the
state component is returned unchanged. -/
def app_step (s : AppState) (req : Request) (now : Int) : HttpResponse × AppState :=
  (full_dispatch_request s.secret_key s.max_request_age s.log_directory req now, s)

/-- `n + 1` consecutive evaluations of the same request at the same fixed
`now`, each starting from the state the previous one left behind. -/
def app_step_iter (s : AppState) (req : Request) (now : Int) : Nat → HttpResponse × AppState
  | 0 => app_step s req now
  | n + 1 => app_step (app_step_iter s req now n).2 req now

/-- The configuration `serve_logs` consults, plus the worker count that the
spec's configuration surface (section 6) lists.  Modelled from the spec: the
source reads only `celery.WORKER_LOG_SERVER_PORT` (line 106); the
`worker_count` field embodies the spec's "fixed worker count" configuration
item so that claims about it can be stated. -/
structure ServeLogsConf where
  worker_log_server_port : Nat
  worker_count : Nat
  deriving DecidableEq

/-- The options dictionary handed to `StandaloneGunicornApplication`
(lines 107-110). -/
structure GunicornOptions where
  bind : String
  workers : Nat
  deriving DecidableEq

/-- Lines 101-111: the `serve_logs` entry point builds the gunicorn options:
it binds `0.0.0.0` on the configured port and sets the worker count to the
literal `2` (line 109). -/
def serve_logs_options (conf : ServeLogsConf) : GunicornOptions :=
  { bind := "0.0.0.0:" ++ toString conf.worker_log_server_port
    workers := 2 }

/-! ## Helper lemmas shared by the claim theorems -/

/-- A correctly signed token decodes to exactly the claim it was built from. -/
theorem decode_auth_signer_dumps (secret payload : String) (issued_at expires_at : Int) :
    decode_auth secret (some (signer_dumps secret payload issued_at expires_at)) =
      some (payload, issued_at, expires_at) := by
  simp [decode_auth, signer_dumps, signer_loads]

/-- The hook falls through (lines 44-68 reach the end without an `abort`)
exactly when the token decodes, its resource equals the routed filename, and
the three freshness conditionals at lines 63-68 all pass. -/
theorem validate_allow_of_checks (secret : String) (max_request_age : Int)
    (req : Request) (now : Int) (filename : String) (issued_at expires_at : Int)
    (hdec : decode_auth secret req.authorization = some (filename, issued_at, expires_at))
    (hroute : parse_log_route req.urlPath = some filename)
    (h1 : |now - issued_at| ≤ max_request_age)
    (h2 : |now - expires_at| ≤ max_request_age)
    (h3 : issued_at ≤ expires_at)
    (h4 : expires_at - issued_at ≤ max_request_age) :
    validate_pre_signed_url secret max_request_age req now = .allow := by
  simp only [validate_pre_signed_url, hdec, hroute]
  rw [if_neg (not_not_intro rfl), if_neg (not_lt.mpr h1), if_neg (not_lt.mpr h2),
    if_neg (by omega)]

/-- A decoded, resource-matched token failing any of the three freshness
conditionals is aborted with `403`. -/
theorem validate_deny_of_stale (secret : String) (max_request_age : Int)
    (req : Request) (now : Int) (filename : String) (issued_at expires_at : Int)
    (hdec : decode_auth secret req.authorization = some (filename, issued_at, expires_at))
    (hroute : parse_log_route req.urlPath = some filename)
    (h : |now - issued_at| > max_request_age ∨ |now - expires_at| > max_request_age ∨
      issued_at > expires_at ∨ expires_at - issued_at > max_request_age) :
    validate_pre_signed_url secret max_request_age req now = .deny403 := by
  simp only [validate_pre_signed_url, hdec, hroute]
  rw [if_neg (not_not_intro rfl)]
  by_cases c1 : |now - issued_at| > max_request_age
  · rw [if_pos c1]
  · rw [if_neg c1]
    by_cases c2 : |now - expires_at| > max_request_age
    · rw [if_pos c2]
    · rw [if_neg c2]
      rcases h with h | h | h | h
      · exact absurd h c1
      · exact absurd h c2
      · rw [if_pos (Or.inl h)]
      · rw [if_pos (Or.inr h)]

/-- A denying hook short-circuits dispatch to the `403` response. -/
theorem full_dispatch_of_deny (secret : String) (max_request_age : Int)
    (log_directory : String) (req : Request) (now : Int)
    (h : validate_pre_signed_url secret max_request_age req now = .deny403) :
    full_dispatch_request secret max_request_age log_directory req now = .forbidden403 := by
  simp only [full_dispatch_request, h]

/-- When the hook falls through on a routed request, dispatch reaches
`serve_logs_view` and returns the file response. -/
theorem full_dispatch_of_allow (secret : String) (max_request_age : Int)
    (log_directory : String) (req : Request) (now : Int) (filename : String)
    (hv : validate_pre_signed_url secret max_request_age req now = .allow)
    (hroute : parse_log_route req.urlPath = some filename) :
    full_dispatch_request secret max_request_age log_directory req now =
      .ok200 log_directory filename := by
  simp only [full_dispatch_request, hv, hroute, serve_logs_view]

/-! ## Claim C1 -/

/-- Claim C1, counterexample.  The claim's window is `issued_at - max_age ≤ now
≤ expires_at + max_age`.  Take `max_age = 30`, a correctly signed token with
`issued_at = 1000`, `expires_at = 1030` (so `issued_at ≤ expires_at ≤
issued_at + max_age` holds), presented on `/log/task1.log`, and `now = 1060 =
expires_at + max_age`, inside the claimed window.  The code computes
`|now - issued_at| = 60 > 30` at line 63 and aborts with `403` instead of
serving the file. -/
theorem C1_claim_counterexample :
    ((1000 : Int) ≤ 1030 ∧ (1030 : Int) ≤ 1000 + 30 ∧
      (1000 : Int) - 30 ≤ 1060 ∧ (1060 : Int) ≤ 1030 + 30) ∧
    full_dispatch_request "s" 30 "d"
        ⟨some (signer_dumps "s" "task1.log" 1000 1030), "/log/task1.log"⟩ 1060 ≠
      HttpResponse.ok200 "d" "task1.log" ∧
    full_dispatch_request "s" 30 "d"
        ⟨some (signer_dumps "s" "task1.log" 1000 1030), "/log/task1.log"⟩ 1060 =
      HttpResponse.forbidden403 := by
  decide

/-- Claim C1, amended.  For every claim `(resource, issued_at, expires_at)`
with `issued_at ≤ expires_at ≤ issued_at + max_age`, a correctly signed token
built from it, presented on the request whose path routes to `resource`,
evaluated at every `now` with `expires_at - max_age ≤ now ≤ issued_at +
max_age`, results in Allow: the request reaches the file responder and
returns `200`.  (The claim's wider window `issued_at - max_age ≤ now ≤
expires_at + max_age` fails against the two absolute-difference checks at
lines 63-66; their intersection is exactly the window stated here.) -/
theorem C1_amended_window_allowed
    (secret log_directory resource : String)
    (max_request_age issued_at expires_at now : Int)
    (hres : parse_log_route ("/log/" ++ resource) = some resource)
    (hie : issued_at ≤ expires_at)
    (hspan : expires_at ≤ issued_at + max_request_age)
    (hlo : expires_at - max_request_age ≤ now)
    (hhi : now ≤ issued_at + max_request_age) :
    full_dispatch_request secret max_request_age log_directory
        ⟨some (signer_dumps secret resource issued_at expires_at), "/log/" ++ resource⟩ now =
      HttpResponse.ok200 log_directory resource := by
  have hv := validate_allow_of_checks secret max_request_age
    ⟨some (signer_dumps secret resource issued_at expires_at), "/log/" ++ resource⟩ now
    resource issued_at expires_at
    (decode_auth_signer_dumps secret resource issued_at expires_at) hres
    (abs_le.mpr (by constructor <;> omega)) (abs_le.mpr (by constructor <;> omega))
    hie (by omega)
  exact full_dispatch_of_allow _ _ _ _ _ _ hv hres

/-- Claim C1, amended, witness at `max_age = 30`, `issued_at = 1000`,
`expires_at = 1020`, `now = 1015`. -/
theorem C1_amended_window_allowed_witness :
    full_dispatch_request "s" 30 "d"
        ⟨some (signer_dumps "s" "task1.log" 1000 1020), "/log/" ++ "task1.log"⟩ 1015 =
      HttpResponse.ok200 "d" "task1.log" :=
  C1_amended_window_allowed "s" "d" "task1.log" 30 1000 1020 1015
    (by decide) (by decide) (by decide) (by decide) (by decide)

/-! ## Claim C5 -/

/-- Claim C5: the freshness bounds are inclusive.  For an otherwise-valid
token (correctly signed, matching resource, `issued_at ≤ expires_at ≤
issued_at + max_age`), a request at `now = issued_at + max_age` and one at
`now = expires_at - max_age` are both allowed, while `now = issued_at +
max_age + 1` and `now = expires_at - max_age - 1` are both denied with
`403`. -/
theorem C5_boundaries_inclusive
    (secret log_directory resource : String)
    (max_request_age issued_at expires_at : Int)
    (hres : parse_log_route ("/log/" ++ resource) = some resource)
    (hie : issued_at ≤ expires_at)
    (hspan : expires_at ≤ issued_at + max_request_age) :
    full_dispatch_request secret max_request_age log_directory
        ⟨some (signer_dumps secret resource issued_at expires_at), "/log/" ++ resource⟩
        (issued_at + max_request_age) = HttpResponse.ok200 log_directory resource ∧
    full_dispatch_request secret max_request_age log_directory
        ⟨some (signer_dumps secret resource issued_at expires_at), "/log/" ++ resource⟩
        (expires_at - max_request_age) = HttpResponse.ok200 log_directory resource ∧
    full_dispatch_request secret max_request_age log_directory
        ⟨some (signer_dumps secret resource issued_at expires_at), "/log/" ++ resource⟩
        (issued_at + max_request_age + 1) = HttpResponse.forbidden403 ∧
    full_dispatch_request secret max_request_age log_directory
        ⟨some (signer_dumps secret resource issued_at expires_at), "/log/" ++ resource⟩
        (expires_at - max_request_age - 1) = HttpResponse.forbidden403 := by
  refine ⟨?_, ?_, ?_, ?_⟩
  · exact full_dispatch_of_allow _ _ _ _ _ _
      (validate_allow_of_checks _ _ _ _ _ _ _
        (decode_auth_signer_dumps secret resource issued_at expires_at) hres
        (abs_le.mpr (by constructor <;> omega)) (abs_le.mpr (by constructor <;> omega))
        hie (by omega)) hres
  · exact full_dispatch_of_allow _ _ _ _ _ _
      (validate_allow_of_checks _ _ _ _ _ _ _
        (decode_auth_signer_dumps secret resource issued_at expires_at) hres
        (abs_le.mpr (by constructor <;> omega)) (abs_le.mpr (by constructor <;> omega))
        hie (by omega)) hres
  · exact full_dispatch_of_deny _ _ _ _ _
      (validate_deny_of_stale _ _ _ _ _ _ _
        (decode_auth_signer_dumps secret resource issued_at expires_at) hres
        (Or.inl (lt_abs.mpr (Or.inl (by omega)))))
  · exact full_dispatch_of_deny _ _ _ _ _
      (validate_deny_of_stale _ _ _ _ _ _ _
        (decode_auth_signer_dumps secret resource issued_at expires_at) hres
        (Or.inr (Or.inl (lt_abs.mpr (Or.inr (by omega))))))

/-- Claim C5, witness at `max_age = 30`, `issued_at = 1000`,
`expires_at = 1020`: allowed at `now = 1030` and `now = 990`, denied at
`now = 1031` and `now = 989`. -/
theorem C5_boundaries_inclusive_witness :
    full_dispatch_request "s" 30 "d"
        ⟨some (signer_dumps "s" "task1.log" 1000 1020), "/log/" ++ "task1.log"⟩
        (1000 + 30) = HttpResponse.ok200 "d" "task1.log" ∧
    full_dispatch_request "s" 30 "d"
        ⟨some (signer_dumps "s" "task1.log" 1000 1020), "/log/" ++ "task1.log"⟩
        (1020 - 30) = HttpResponse.ok200 "d" "task1.log" ∧
    full_dispatch_request "s" 30 "d"
        ⟨some (signer_dumps "s" "task1.log" 1000 1020), "/log/" ++ "task1.log"⟩
        (1000 + 30 + 1) = HttpResponse.forbidden403 ∧
    full_dispatch_request "s" 30 "d"
        ⟨some (signer_dumps "s" "task1.log" 1000 1020), "/log/" ++ "task1.log"⟩
        (1020 - 30 - 1) = HttpResponse.forbidden403 :=
  C5_boundaries_inclusive "s" "d" "task1.log" 30 1000 1020
    (by decide) (by decide) (by decide)

/-! ## Claim C2 -/

/-- Claim C2: a request whose `Authorization` header is absent, or whose token
is malformed, or whose signature does not verify, or whose `iat`/`exp` header
fields are absent or non-integer (so that decoding raises), is denied with
`403`; and that denial is the very same response every other
authorization-layer denial produces — the `403` is opaque, with no
differentiated error message. -/
theorem C2_decode_failure_opaque_deny
    (secret log_directory : String) (max_request_age : Int)
    (req req2 : Request) (now now2 : Int)
    (hfail : req.authorization = none ∨
      req.authorization = some .malformed ∨
      (∃ p i e k, req.authorization = some (.signed p i e k) ∧ k ≠ secret) ∨
      (∃ p e k, req.authorization = some (.signed p none e k)) ∨
      (∃ p i k, req.authorization = some (.signed p i none k)))
    (hdeny : validate_pre_signed_url secret max_request_age req2 now2 = .deny403) :
    full_dispatch_request secret max_request_age log_directory req now = .forbidden403 ∧
    full_dispatch_request secret max_request_age log_directory req now =
      full_dispatch_request secret max_request_age log_directory req2 now2 := by
  have hdec : decode_auth secret req.authorization = none := by
    rcases hfail with h | h | ⟨p, i, e, k, h, hk⟩ | ⟨p, e, k, h⟩ | ⟨p, i, k, h⟩
    · rw [h]; rfl
    · rw [h]; rfl
    · rw [h]; simp [decode_auth, signer_loads, hk]
    · rw [h]; by_cases hk : k = secret <;> simp [decode_auth, signer_loads, hk]
    · rw [h]; by_cases hk : k = secret <;> simp [decode_auth, signer_loads, hk]
  have hv : validate_pre_signed_url secret max_request_age req now = .deny403 := by
    simp only [validate_pre_signed_url, hdec]
  refine ⟨full_dispatch_of_deny _ _ _ _ _ hv, ?_⟩
  rw [full_dispatch_of_deny _ _ _ _ _ hv, full_dispatch_of_deny _ _ _ _ _ hdeny]

/-- Claim C2, witness: a request with no `Authorization` header is denied, and
its response coincides with the response to a resource-mismatch denial
(a correctly signed fresh token for `a` presented on `/log/b`). -/
theorem C2_decode_failure_opaque_deny_witness :
    full_dispatch_request "s" 30 "d" ⟨none, "/log/task1.log"⟩ 1000 = .forbidden403 ∧
    full_dispatch_request "s" 30 "d" ⟨none, "/log/task1.log"⟩ 1000 =
      full_dispatch_request "s" 30 "d"
        ⟨some (signer_dumps "s" "a" 1000 1020), "/log/b"⟩ 1010 :=
  C2_decode_failure_opaque_deny "s" "d" 30
    ⟨none, "/log/task1.log"⟩ ⟨some (signer_dumps "s" "a" 1000 1020), "/log/b"⟩ 1000 1010
    (Or.inl rfl) (by decide)

/-! ## Claim C3 -/

/-- Claim C3: a token whose signature verifies and whose timestamps pass every
freshness check is still denied with `403` when the resource named in its
claim differs, by exact string comparison, from the filename parsed from the
request URL (line 58). -/
theorem C3_resource_mismatch_denied
    (secret log_directory resource : String)
    (max_request_age issued_at expires_at now : Int)
    (req : Request) (reqFilename : String)
    (hauth : req.authorization = some (signer_dumps secret resource issued_at expires_at))
    (hroute : parse_log_route req.urlPath = some reqFilename)
    (hne : resource ≠ reqFilename)
    (h1 : |now - issued_at| ≤ max_request_age)
    (h2 : |now - expires_at| ≤ max_request_age)
    (h3 : issued_at ≤ expires_at)
    (h4 : expires_at - issued_at ≤ max_request_age) :
    full_dispatch_request secret max_request_age log_directory req now = .forbidden403 := by
  have hdec : decode_auth secret req.authorization =
      some (resource, issued_at, expires_at) := by
    rw [hauth]; exact decode_auth_signer_dumps secret resource issued_at expires_at
  have hv : validate_pre_signed_url secret max_request_age req now = .deny403 := by
    simp only [validate_pre_signed_url, hdec, hroute]
    rw [if_pos hne]
  exact full_dispatch_of_deny _ _ _ _ _ hv

/-- Claim C3, witness: a fresh, correctly signed token for `task1.log`
presented on `/log/task2.log` at `now = 1015`, `max_age = 30`. -/
theorem C3_resource_mismatch_denied_witness :
    ("task1.log" ≠ "task2.log") ∧
    full_dispatch_request "s" 30 "d"
      ⟨some (signer_dumps "s" "task1.log" 1000 1020), "/log/task2.log"⟩ 1015 =
      .forbidden403 :=
  ⟨by decide,
    C3_resource_mismatch_denied "s" "d" "task1.log" 30 1000 1020 1015
      ⟨some (signer_dumps "s" "task1.log" 1000 1020), "/log/task2.log"⟩ "task2.log"
      rfl (by decide) (by decide) (by decide) (by decide) (by decide) (by decide)⟩

/-! ## Claim C4 -/

/-- Claim C4: a decoded claim with `issued_at > expires_at`, or with
`expires_at - issued_at > max_age`, is denied with `403` at every `now` —
in particular also when `now` is within `max_age` of both timestamps
individually, since line 67 rejects the claim on its own shape. -/
theorem C4_invalid_claim_denied
    (secret log_directory : String) (max_request_age : Int)
    (req : Request) (resource reqFilename : String)
    (issued_at expires_at now : Int)
    (hdec : decode_auth secret req.authorization = some (resource, issued_at, expires_at))
    (hroute : parse_log_route req.urlPath = some reqFilename)
    (hbad : issued_at > expires_at ∨ expires_at - issued_at > max_request_age) :
    full_dispatch_request secret max_request_age log_directory req now = .forbidden403 := by
  have hv : validate_pre_signed_url secret max_request_age req now = .deny403 := by
    simp only [validate_pre_signed_url, hdec, hroute]
    by_cases hm : resource ≠ reqFilename
    · rw [if_pos hm]
    · rw [if_neg hm]
      by_cases c1 : |now - issued_at| > max_request_age
      · rw [if_pos c1]
      · rw [if_neg c1]
        by_cases c2 : |now - expires_at| > max_request_age
        · rw [if_pos c2]
        · rw [if_neg c2, if_pos hbad]
  exact full_dispatch_of_deny _ _ _ _ _ hv

/-- Claim C4, witness: `max_age = 30`, `issued_at = 1000`,
`expires_at = 1040` (span `40 > 30`), `now = 1020` — within `30` of both
timestamps individually — still denied. -/
theorem C4_invalid_claim_denied_witness :
    (|(1020 : Int) - 1000| ≤ 30 ∧ |(1020 : Int) - 1040| ≤ 30) ∧
    full_dispatch_request "s" 30 "d"
      ⟨some (signer_dumps "s" "task1.log" 1000 1040), "/log/task1.log"⟩ 1020 =
      .forbidden403 :=
  ⟨by decide,
    C4_invalid_claim_denied "s" "d" 30
      ⟨some (signer_dumps "s" "task1.log" 1000 1040), "/log/task1.log"⟩
      "task1.log" "task1.log" 1000 1040 1020
      (by decide) (by decide) (Or.inr (by decide))⟩

/-! ## Claim C6 -/

/-- Claim C6: the file responder is reached only through the authorization
check.  Whenever dispatch of any request produces a `200` file response, the
before-request hook evaluated to Allow on that very request, the served
filename is the one parsed from the URL by the only registered route, and the
decoded token named exactly that filename as its resource. -/
theorem C6_responder_only_after_allow
    (secret log_directory : String) (max_request_age : Int)
    (req : Request) (now : Int) (directory filename : String)
    (h : full_dispatch_request secret max_request_age log_directory req now =
      HttpResponse.ok200 directory filename) :
    validate_pre_signed_url secret max_request_age req now = .allow ∧
    parse_log_route req.urlPath = some filename ∧
    ∃ issued_at expires_at,
      decode_auth secret req.authorization = some (filename, issued_at, expires_at) := by
  have hval : validate_pre_signed_url secret max_request_age req now = .allow := by
    cases hv : validate_pre_signed_url secret max_request_age req now with
    | allow => rfl
    | deny403 =>
      rw [full_dispatch_of_deny _ _ _ _ _ hv] at h
      exact absurd h (by simp)
    | internalError =>
      simp only [full_dispatch_request, hv] at h
      exact absurd h (by simp)
  have hex : ∃ f, parse_log_route req.urlPath = some f := by
    cases hp0 : parse_log_route req.urlPath with
    | none =>
      simp only [full_dispatch_request, hval, hp0] at h
      exact absurd h (by simp)
    | some f => exact ⟨f, rfl⟩
  obtain ⟨f, hpf⟩ := hex
  simp only [full_dispatch_request, hval, hpf, serve_logs_view,
    HttpResponse.ok200.injEq] at h
  obtain ⟨hd, hf⟩ := h
  subst hf
  refine ⟨hval, hpf, ?_⟩
  cases hdec : decode_auth secret req.authorization with
  | none =>
    simp only [validate_pre_signed_url, hdec] at hval
    exact absurd hval (by simp)
  | some triple =>
    obtain ⟨a, issued_at, expires_at⟩ := triple
    simp only [validate_pre_signed_url, hdec, hpf] at hval
    by_cases ha : a = f
    · subst ha
      exact ⟨issued_at, expires_at, rfl⟩
    · rw [if_pos ha] at hval
      exact absurd hval (by simp)

/-- Claim C6, witness: the concrete allowed request of the scenario — any
`200` it produces went through an Allow decision. -/
theorem C6_responder_only_after_allow_witness :
    validate_pre_signed_url "s" 30
      ⟨some (signer_dumps "s" "task1.log" 1000 1020), "/log/task1.log"⟩ 1015 = .allow ∧
    parse_log_route "/log/task1.log" = some "task1.log" ∧
    ∃ issued_at expires_at,
      decode_auth "s" (some (signer_dumps "s" "task1.log" 1000 1020)) =
        some ("task1.log", issued_at, expires_at) :=
  C6_responder_only_after_allow "s" "d" 30
    ⟨some (signer_dumps "s" "task1.log" 1000 1020), "/log/task1.log"⟩ 1015
    "d" "task1.log" (by decide)

/-! ## Claim C7 -/

/-- Claim C7: the concrete scenario.  With `max_age = 30` and a correctly
signed token carrying `issued_at = 1000`, `expires_at = 1020`,
`resource = "task1.log"`: a request for `/log/task1.log` at `now = 1015`
returns `200`; the same token on a request for `/log/task2.log` is denied
with `403`; the same token on `/log/task1.log` at `now = 1060` is denied
with `403`. -/
theorem C7_concrete_scenario :
    full_dispatch_request "s" 30 "d"
        ⟨some (signer_dumps "s" "task1.log" 1000 1020), "/log/task1.log"⟩ 1015 =
      HttpResponse.ok200 "d" "task1.log" ∧
    full_dispatch_request "s" 30 "d"
        ⟨some (signer_dumps "s" "task1.log" 1000 1020), "/log/task2.log"⟩ 1015 =
      HttpResponse.forbidden403 ∧
    full_dispatch_request "s" 30 "d"
        ⟨some (signer_dumps "s" "task1.log" 1000 1020), "/log/task1.log"⟩ 1060 =
      HttpResponse.forbidden403 := by
  decide

/-! ## Claim C8 -/

/-- Claim C8: the authorization decision is a deterministic, stateless
function of the token, the requested path and the fixed `now`: evaluating the
same request any number of consecutive times yields the very same response
each time, and no evaluation changes the server-side state. -/
theorem C8_stateless_idempotent (s : AppState) (req : Request) (now : Int) (n : Nat) :
    app_step_iter s req now n = app_step s req now ∧
    (app_step_iter s req now n).2 = s := by
  induction n with
  | zero => exact ⟨rfl, rfl⟩
  | succ n ih =>
    constructor
    · show app_step (app_step_iter s req now n).2 req now = app_step s req now
      rw [ih.2]
    · show (app_step (app_step_iter s req now n).2 req now).2 = s
      rw [ih.2]
      rfl

/-! ## Claim C9 -/

/-- Claim C9, counterexample.  The worker count is not determined by
configuration: `serve_logs` hands gunicorn the literal `2` (line 109).  For
the configuration whose spec-level worker-count item is `3` (port `8793`),
the built options still carry `2` workers, differing from the configured
value. -/
theorem C9_claim_counterexample :
    (serve_logs_options ⟨8793, 3⟩).workers = 2 ∧
    (ServeLogsConf.mk 8793 3).worker_count = 3 ∧
    (serve_logs_options ⟨8793, 3⟩).workers ≠ (ServeLogsConf.mk 8793 3).worker_count := by
  decide

/-- Claim C9, amended: the entry point starts the HTTP listener bound to
`0.0.0.0` on the configured `celery.WORKER_LOG_SERVER_PORT`, with a worker
count fixed at the hardcoded literal `2` — determined at startup but not read
from configuration. -/
theorem C9_amended_entry_point (conf : ServeLogsConf) :
    (serve_logs_options conf).bind = "0.0.0.0:" ++ toString conf.worker_log_server_port ∧
    (serve_logs_options conf).workers = 2 :=
  ⟨rfl, rfl⟩

/-! ## Claim C10 -/

/-- Claim C10: the resource comparison at line 58 is partial.  A request
matched by no route (so `request.view_args` has no `filename`) that presents
a correctly signed, fresh token makes the hook raise an unhandled error —
surfacing as a `500`, not the opaque `403` — because the
`request.view_args['filename']` subscript sits outside the `try` block. -/
theorem C10_unrouted_request_unhandled
    (secret log_directory resource : String)
    (max_request_age issued_at expires_at now : Int) (req : Request)
    (hauth : req.authorization = some (signer_dumps secret resource issued_at expires_at))
    (hroute : parse_log_route req.urlPath = none)
    (h1 : |now - issued_at| ≤ max_request_age)
    (h2 : |now - expires_at| ≤ max_request_age)
    (h3 : issued_at ≤ expires_at)
    (h4 : expires_at - issued_at ≤ max_request_age) :
    full_dispatch_request secret max_request_age log_directory req now =
      HttpResponse.internalError500 ∧
    full_dispatch_request secret max_request_age log_directory req now ≠
      HttpResponse.forbidden403 := by
  have hdec : decode_auth secret req.authorization =
      some (resource, issued_at, expires_at) := by
    rw [hauth]; exact decode_auth_signer_dumps secret resource issued_at expires_at
  have hv : validate_pre_signed_url secret max_request_age req now = .internalError := by
    simp only [validate_pre_signed_url, hdec, hroute]
  constructor
  · simp only [full_dispatch_request, hv]
  · simp only [full_dispatch_request, hv]
    simp

/-- Claim C10, witness: a fresh, correctly signed token presented on `/x`
(matched by no route) yields the unhandled-error response. -/
theorem C10_unrouted_request_unhandled_witness :
    full_dispatch_request "s" 30 "d"
        ⟨some (signer_dumps "s" "task1.log" 1000 1020), "/x"⟩ 1015 =
      HttpResponse.internalError500 ∧
    full_dispatch_request "s" 30 "d"
        ⟨some (signer_dumps "s" "task1.log" 1000 1020), "/x"⟩ 1015 ≠
      HttpResponse.forbidden403 :=
  C10_unrouted_request_unhandled "s" "d" "task1.log" 30 1000 1020 1015
    ⟨some (signer_dumps "s" "task1.log" 1000 1020), "/x"⟩
    rfl (by decide) (by decide) (by decide) (by decide) (by decide)

end ServeLogs
